import Mathlib

/-!
Shallow embedding of the graphrag-api frontend (Next.js/TypeScript) and
proofs about its request construction, proxy routes, status polling,
401 handling and sharing dialog.

Conventions:
* JSON request bodies are modelled as the association list of fields that
  `JSON.stringify` actually emits; a JavaScript property whose value is
  `undefined` is dropped, which is modelled with `Option` arguments.
* Proxy routes are modelled as pure functions from the incoming request
  (cookie token, parsed body) and the backend's observed response to the
  produced `NextResponse` plus the list of backend calls issued.
* Backend behaviour itself is external to this repository; where a claim
  needs it (sharing), the definition is modelled from the spec and says so.
-/

namespace GraphRAG

/-- Fields of a JSON body as emitted by JSON.stringify (all values here are
strings; `undefined` properties are omitted by JavaScript and therefore
never appear in the list). -/
abbrev BodyFields := List (String × String)

/-- An HTTP request issued by the browser api client
(src/frontend/lib/api-client.ts). -/
structure ApiRequest where
  method : String
  path : String
  bodyFields : BodyFields
  deriving DecidableEq, Repr

/-- Default for the `search_type` parameter of `apiClient.query`
(api-client.ts:129: `search_type: string = "semantic"`). -/
def querySearchTypeDefault : String := "semantic"

/-- The search types the spec admits for `query`. -/
def querySearchTypes : List String := ["semantic", "graph", "hybrid"]

/-- Request built by `apiClient.query(query, search_type, document_id?)`
(api-client.ts:129-142): body is `{query, search_type}` and `document_id`
is added only when the argument is truthy (present and non-empty). -/
def queryRequest (query : String) (search_type : String)
    (document_id : Option String) : ApiRequest :=
  { method := "POST", path := "/api/query",
    bodyFields :=
      [("query", query), ("search_type", search_type)] ++
        (match document_id with
         | some d => if d == "" then [] else [("document_id", d)]
         | none => []) }

/-- Call site ChatSidebar.handleSendMessage (chat-sidebar.tsx:95):
`apiClient.query(input, selectedDocument.document_id, "hybrid", "claude", 5)`.
The client signature is `query(query, search_type = "semantic", document_id?)`,
so the document id is bound to `search_type`, the string `"hybrid"` is bound
to `document_id`, and the extra arguments `"claude"` and `5` are ignored by
JavaScript. -/
def chatSidebarQueryRequest (input docId : String) : ApiRequest :=
  queryRequest input docId (some "hybrid")

/-- Call site ChatTab.handleSendMessage (graph-viewer.tsx:402):
`apiClient.query(input, "hybrid")` with no document id. -/
def chatTabQueryRequest (input : String) : ApiRequest :=
  queryRequest input "hybrid" none

/-- Models supported by the processing UI (document-viewer.tsx LLM_MODELS). -/
def supportedModels : List String := ["claude", "openai", "kimi", "deepseek", "ollama"]

/-- Request built by `apiClient.processDocument(documentId, model, type)`
(api-client.ts:119-127), body `{document_id, model, doc_type}`. The TS
parameter `type` defaults to "generic". `model` is typed `string` in TS but
one call site passes no value, so it is modelled as `Option String`: when it
is `none` the property is `undefined` and JSON.stringify omits it. -/
def processDocumentRequest (documentId : String) (model : Option String)
    (docType : String) : ApiRequest :=
  { method := "POST", path := "/api/documents/process",
    bodyFields :=
      ("document_id", documentId) ::
        (match model with
         | some m => [("model", m)]
         | none => []) ++ [("doc_type", docType)] }

/-- Auto-process call after upload (legacy DocumentsTab,
documents-tab.tsx:378): `apiClient.processDocument(doc.document_id)` with no
model argument; the default `type = "generic"` applies. -/
def autoProcessRequest (docId : String) : ApiRequest :=
  processDocumentRequest docId none "generic"

/-- Explicit process call (documents-tab.tsx:181 and :407):
`apiClient.processDocument(documentId, model, "generic")`. -/
def handleProcessDocumentRequest (docId model : String) : ApiRequest :=
  processDocumentRequest docId (some model) "generic"

/-- Visibility of the process/reprocess button in the document viewer
(document-viewer.tsx:227): shown when the status is Pending, Failed or
Completed and an onProcess handler was provided. -/
def processButtonShown (status : String) (hasOnProcess : Bool) : Bool :=
  (status == "Pending" || status == "Failed" || status == "Completed") && hasOnProcess

/-- Visibility of the cancel button in the document viewer
(document-viewer.tsx:246): shown exactly while the status is Processing. -/
def cancelButtonShown (status : String) : Bool :=
  status == "Processing"

/-- C1: the spec requires every `apiClient.query` call to send a
`search_type` in {semantic, graph, hybrid} and a `document_id` naming the
target document.  At the chat-sidebar call site the arguments are passed in
the wrong order: the body's `search_type` field carries the document id
(here "doc-42", not a valid search type) and the `document_id` field carries
the literal string "hybrid" instead of the selected document.  The
graph-viewer call site, by contrast, sends a valid body. -/
theorem c1_chatSidebar_query_swaps_searchType_and_documentId :
    List.lookup "search_type" (chatSidebarQueryRequest "qual o resumo" "doc-42").bodyFields
        = some "doc-42" ∧
    querySearchTypes.contains "doc-42" = false ∧
    List.lookup "document_id" (chatSidebarQueryRequest "qual o resumo" "doc-42").bodyFields
        = some "hybrid" ∧
    List.lookup "search_type" (chatTabQueryRequest "pergunta").bodyFields = some "hybrid" ∧
    List.lookup "document_id" (chatTabQueryRequest "pergunta").bodyFields = none := by
  decide

/-- C2: the spec requires every process request body to carry document_id,
model (a supported model name) and doc_type.  The auto-process call after
upload passes no model argument, so its JSON body has no `model` field at
all, while the explicit call sites do send all three fields. -/
theorem c2_auto_process_request_missing_model :
    (autoProcessRequest "doc-7").bodyFields.map Prod.fst = ["document_id", "doc_type"] ∧
    List.lookup "model" (autoProcessRequest "doc-7").bodyFields = none ∧
    List.lookup "doc_type" (autoProcessRequest "doc-7").bodyFields = some "generic" ∧
    (handleProcessDocumentRequest "doc-7" "claude").bodyFields.map Prod.fst
        = ["document_id", "model", "doc_type"] ∧
    supportedModels.contains "claude" = true := by
  decide

/-- C3 counterexample: the claim says the process/reprocess action is
offered iff the status is Pending or Failed; but the viewer also offers it
for a Completed document. -/
theorem c3_counterexample_reprocess_offered_for_completed :
    processButtonShown "Completed" true = true ∧
    (["Pending", "Failed"].contains "Completed") = false := by
  decide

/-- C3 (amended): the process/reprocess action is offered iff the document
status is Pending, Failed or Completed (reprocessing is also offered for
Completed documents); it is never offered while the status is Processing,
when the cancel button is offered instead. -/
theorem c3_process_button_statuses (status : String) (hasOnProcess : Bool) :
    processButtonShown status hasOnProcess
        = ((["Pending", "Failed", "Completed"].contains status) && hasOnProcess) ∧
    processButtonShown "Processing" hasOnProcess = false ∧
    cancelButtonShown "Processing" = true ∧
    (processButtonShown status hasOnProcess = true → cancelButtonShown status = false) := by
  refine ⟨?_, ?_, rfl, ?_⟩
  · simp [processButtonShown, List.contains, Bool.or_assoc, Bool.beq_eq_decide_eq]
  · simp [processButtonShown]
  · intro hb
    by_cases hp : status = "Processing"
    · subst hp
      simp [processButtonShown] at hb
    · simp [cancelButtonShown, hp]

/-- C3 witness: for a Pending document the process button is offered and the
cancel button is not. -/
theorem c3_process_button_statuses_witness :
    processButtonShown "Pending" true = true ∧ cancelButtonShown "Pending" = false :=
  ⟨by decide, (c3_process_button_statuses "Pending" true).2.2.2 (by decide)⟩

/-- Body of a NextResponse produced by one of the proxy routes. -/
inductive RespBody
  | passthrough (payload : String)
  | errObj (msg : String)
  | emptyObj
  deriving DecidableEq, Repr

/-- A response produced by a proxy route: HTTP status plus body. -/
structure RouteResp where
  status : Nat
  body : RespBody
  deriving DecidableEq, Repr

/-- A request a proxy route makes to the backend: method, path segments and
the Authorization bearer token, if any. -/
inductive BackendCall
  | get (pathSegments : List String) (auth : Option String)
  | post (pathSegments : List String) (auth : Option String) (body : Option BodyFields)
  | del (pathSegments : List String) (auth : Option String)
  deriving DecidableEq, Repr

/-- `Response.ok` of the fetch API: status in the 2xx range. -/
def fetchOk (status : Nat) : Bool := decide (200 ≤ status ∧ status ≤ 299)

/-- The backend's response as the proxy observes it: HTTP status and the
payload of `response.json()` (`none` when the body fails to parse as JSON,
making `response.json()` throw). -/
structure BackendResp where
  status : Nat
  jsonBody : Option String
  deriving DecidableEq, Repr

/-- The backend's response as observed by the documents-list route, which
inspects the Content-Type header instead of parsing eagerly. -/
structure ListBackendResp where
  status : Nat
  contentTypeJson : Bool
  bodyText : String
  deriving DecidableEq, Repr

/-- POST /api/query proxy route (embedded in api-client.ts:591-621).  After
the cookie guard it forwards the body to the backend /query endpoint; any
non-2xx backend response makes it throw, and the catch handler replies 500
with a generic error object.  Only 2xx responses are passed through. -/
def queryProxyPOST (token : Option String) (reqJson : Option BodyFields)
    (backend : BackendResp) : RouteResp × List BackendCall :=
  match token with
  | none => (⟨401, .errObj "Não autenticado"⟩, [])
  | some t =>
    match reqJson with
    | none => (⟨500, .errObj "Erro na busca"⟩, [])
    | some b =>
      let call := BackendCall.post ["query"] (some t) (some b)
      let resp : RouteResp :=
        if fetchOk backend.status then
          match backend.jsonBody with
          | some payload => ⟨backend.status, .passthrough payload⟩
          | none => ⟨500, .errObj "Erro na busca"⟩
        else ⟨500, .errObj "Erro na busca"⟩
      (resp, [call])

/-- GET /api/documents proxy route (app/api/documents/route.ts:5-38): cookie
guard, then one backend GET /documents; a JSON Content-Type is passed
through with the backend status, anything else becomes an error object
(status 0 is mapped to 500 by `response.status || 500`). -/
def documentsListGET (token : Option String) (backend : ListBackendResp) :
    RouteResp × List BackendCall :=
  match token with
  | none => (⟨401, .errObj "Não autenticado"⟩, [])
  | some t =>
    let call := BackendCall.get ["documents"] (some t)
    let resp : RouteResp :=
      if backend.contentTypeJson then
        ⟨backend.status, .passthrough backend.bodyText⟩
      else
        ⟨if backend.status == 0 then 500 else backend.status,
         .errObj ("Backend error: " ++ backend.bodyText.take 100)⟩
    (resp, [call])

/-- POST /api/documents/process proxy route
(app/api/documents/process/route.ts:5-30): cookie guard, then the parsed
request body is forwarded to backend /process and the backend's JSON body
and status are returned unchanged. -/
def processProxyPOST (token : Option String) (reqJson : Option BodyFields)
    (backend : BackendResp) : RouteResp × List BackendCall :=
  match token with
  | none => (⟨401, .errObj "Não autenticado"⟩, [])
  | some t =>
    match reqJson with
    | none => (⟨500, .errObj "Erro ao processar documento"⟩, [])
    | some b =>
      let call := BackendCall.post ["process"] (some t) (some b)
      let resp : RouteResp :=
        match backend.jsonBody with
        | some payload => ⟨backend.status, .passthrough payload⟩
        | none => ⟨500, .errObj "Erro ao processar documento"⟩
      (resp, [call])

/-- DELETE /api/documents/[id] proxy route
(app/api/documents/[id]/route.ts:5-26): cookie guard, then one backend
DELETE; the route answers with the backend status and an empty JSON object. -/
def documentDeleteRoute (token : Option String) (id : String)
    (backendStatus : Nat) : RouteResp × List BackendCall :=
  match token with
  | none => (⟨401, .errObj "Não autenticado"⟩, [])
  | some t =>
    (⟨backendStatus, .emptyObj⟩, [BackendCall.del ["documents", id] (some t)])

/-- GET /api/documents/[id] status proxy route
(app/api/documents/[id]/route.ts:31-54): cookie guard, then exactly one
backend GET /status/{id} with the bearer token; the backend's JSON body and
status are returned unchanged (a non-JSON backend body makes
`response.json()` throw and the catch handler answers 500). -/
def statusProxyGET (token : Option String) (id : String)
    (backend : BackendResp) : RouteResp × List BackendCall :=
  match token with
  | none => (⟨401, .errObj "Não autenticado"⟩, [])
  | some t =>
    let call := BackendCall.get ["status", id] (some t)
    let resp : RouteResp :=
      match backend.jsonBody with
      | some payload => ⟨backend.status, .passthrough payload⟩
      | none => ⟨500, .errObj "Erro ao obter status"⟩
    (resp, [call])

/-- Request body seen by the catch-all POST proxy route. -/
inductive CatchAllBody
  | formData (fields : BodyFields)
  | jsonFields (fields : BodyFields)
  | jsonUnparsable
  | noBody
  deriving DecidableEq, Repr

/-- Body the catch-all POST route forwards to the backend: form data and
parsed JSON are forwarded, an unparsable JSON body or a missing
Content-Type forwards no body. -/
def catchAllForward (b : CatchAllBody) : Option BodyFields :=
  match b with
  | .formData f => some f
  | .jsonFields f => some f
  | .jsonUnparsable => none
  | .noBody => none

/-- Catch-all GET proxy route (embedded in app/api/documents/route.ts):
no cookie guard; it forwards to the backend with an Authorization header
only when the cookie token exists. -/
def catchAllGET (token : Option String) (slug : List String)
    (backend : BackendResp) : RouteResp × List BackendCall :=
  let call := BackendCall.get slug token
  let resp : RouteResp :=
    match backend.jsonBody with
    | some payload => ⟨backend.status, .passthrough payload⟩
    | none => ⟨500, .errObj "Proxy error"⟩
  (resp, [call])

/-- Catch-all POST proxy route (embedded in app/api/documents/route.ts):
no cookie guard; forwards the request body per its Content-Type. -/
def catchAllPOST (token : Option String) (slug : List String)
    (reqBody : CatchAllBody) (backend : BackendResp) :
    RouteResp × List BackendCall :=
  let call := BackendCall.post slug token (catchAllForward reqBody)
  let resp : RouteResp :=
    match backend.jsonBody with
    | some payload => ⟨backend.status, .passthrough payload⟩
    | none => ⟨500, .errObj "Proxy error"⟩
  (resp, [call])

/-- Catch-all DELETE proxy route (embedded in app/api/documents/route.ts):
no cookie guard. -/
def catchAllDELETE (token : Option String) (slug : List String)
    (backend : BackendResp) : RouteResp × List BackendCall :=
  let call := BackendCall.del slug token
  let resp : RouteResp :=
    match backend.jsonBody with
    | some payload => ⟨backend.status, .passthrough payload⟩
    | none => ⟨500, .errObj "Proxy error"⟩
  (resp, [call])

/-- C4: the claim says a backend 403 on POST /query is returned to the
caller with the same status and the backend's error payload; but the query
proxy route throws on every non-2xx backend response, so its catch handler
answers 500 with the generic body, and the 403 never reaches the caller. -/
theorem c4_query_proxy_masks_forbidden_as_500 :
    queryProxyPOST (some "tok")
        (some [("query", "resumo"), ("search_type", "semantic"), ("document_id", "D")])
        ⟨403, some "forbidden-detail"⟩
      = (⟨500, .errObj "Erro na busca"⟩,
         [BackendCall.post ["query"] (some "tok")
            (some [("query", "resumo"), ("search_type", "semantic"), ("document_id", "D")])]) ∧
    (⟨500, RespBody.errObj "Erro na busca"⟩ : RouteResp)
        ≠ ⟨403, RespBody.passthrough "forbidden-detail"⟩ := by
  constructor
  · rfl
  · decide

/-- C5: with an api_token cookie, the status proxy route issues exactly one
backend GET /status/{id} carrying that bearer token and no other call, and
returns the backend's JSON body and HTTP status unchanged. -/
theorem c5_status_route_is_pure_passthrough (t id : String) (st : Nat) (payload : String) :
    statusProxyGET (some t) id ⟨st, some payload⟩
      = (⟨st, .passthrough payload⟩, [BackendCall.get ["status", id] (some t)]) := by
  rfl

/-- C9: with no api_token cookie the list-documents, process,
delete-document and status proxy routes answer 401 with the error body
"Não autenticado" and issue no backend call at all, whereas the catch-all
GET/POST/DELETE proxy routes forward the request to the backend with no
Authorization header instead of rejecting it. -/
theorem c9_cookie_guard_vs_catch_all (lb : ListBackendResp) (b1 b2 b3 b4 : BackendResp)
    (req : Option BodyFields) (id : String) (slug : List String)
    (cb : CatchAllBody) (st : Nat) (payload : String) :
    documentsListGET none lb = (⟨401, .errObj "Não autenticado"⟩, []) ∧
    processProxyPOST none req b1 = (⟨401, .errObj "Não autenticado"⟩, []) ∧
    documentDeleteRoute none id st = (⟨401, .errObj "Não autenticado"⟩, []) ∧
    statusProxyGET none id b2 = (⟨401, .errObj "Não autenticado"⟩, []) ∧
    (catchAllGET none slug b3).2 = [BackendCall.get slug none] ∧
    (catchAllPOST none slug cb b4).2 = [BackendCall.post slug none (catchAllForward cb)] ∧
    (catchAllDELETE none slug b3).2 = [BackendCall.del slug none] ∧
    (catchAllGET none slug ⟨st, some payload⟩).1 = ⟨st, .passthrough payload⟩ := by
  exact ⟨rfl, rfl, rfl, rfl, rfl, rfl, rfl, rfl⟩

/-- MIME types accepted by DocumentsTab.handleFileUpload
(documents-tab.tsx:132-142). -/
def validTypes : List String :=
  ["application/pdf",
   "application/vnd.openxmlformats-officedocument.wordprocessingml.document",
   "text/plain",
   "application/vnd.openxmlformats-officedocument.spreadsheetml.sheet",
   "application/vnd.ms-excel",
   "application/msword",
   "application/vnd.ms-powerpoint",
   "application/vnd.openxmlformats-officedocument.presentationml.presentation",
   "text/csv"]

/-- Error message set for an unsupported upload (documents-tab.tsx:145). -/
def uploadTypeErrorMsg : String :=
  "Tipo de arquivo não suportado. Por favor envie PDF, DOCX, TXT, XLSX, PPTX ou CSV."

/-- An API call issued by the documents tab component. -/
inductive FrontendCall
  | upload (filename : String)
  | reloadDocuments
  deriving DecidableEq, Repr

/-- JavaScript `String.prototype.endsWith`: true iff the character sequence
of `suffix` ends the character sequence of `s`. -/
def strEndsWith (s suffix : String) : Bool :=
  suffix.data.isSuffixOf s.data

/-- DocumentsTab.handleFileUpload (documents-tab.tsx:130-163): result is the
error message left in state (`none` when cleared) and the api-client calls
issued.  `uploadResult` is the outcome of `apiClient.uploadDocument`:
`none` means it succeeded, `some m` means it threw the message `m`. -/
def handleFileUpload (fileType fileName : String) (uploadResult : Option String) :
    Option String × List FrontendCall :=
  if !(validTypes.contains fileType) && !(strEndsWith fileName ".csv") then
    (some uploadTypeErrorMsg, [])
  else
    match uploadResult with
    | none => (none, [.upload fileName, .reloadDocuments])
    | some m => (some m, [.upload fileName])

/-- C6: a file whose MIME type is outside the supported set and whose name
does not end in ".csv" is rejected synchronously: the error message is set
and no upload request is issued. -/
theorem c6_unsupported_upload_rejected_before_request
    (fileType fileName : String) (uploadResult : Option String)
    (hType : validTypes.contains fileType = false)
    (hName : strEndsWith fileName ".csv" = false) :
    handleFileUpload fileType fileName uploadResult = (some uploadTypeErrorMsg, []) := by
  unfold handleFileUpload
  rw [hType, hName]
  rfl

/-- C6 witness: a zip file is rejected with the error message and no calls. -/
theorem c6_unsupported_upload_witness :
    validTypes.contains "application/zip" = false ∧
    strEndsWith "archive.zip" ".csv" = false ∧
    handleFileUpload "application/zip" "archive.zip" none = (some uploadTypeErrorMsg, []) :=
  ⟨by decide, by decide,
   c6_unsupported_upload_rejected_before_request "application/zip" "archive.zip" none
     (by decide) (by decide)⟩

/-- Browser-side credential state of the api client (module variables of
api-client.ts plus the storages touched by handleUnauthorized; the storage
keys are "api_token" and "username", the cookie key is "api_token"). -/
structure ClientState where
  authToken : Option String
  isRedirecting : Bool
  localStorageApiToken : Option String
  localStorageUsername : Option String
  sessionStorageApiToken : Option String
  cookieApiToken : Option String
  locationHref : Option String
  deriving DecidableEq, Repr

/-- handleUnauthorized (api-client.ts:7-26): on the first 401 it sets the
redirect flag, clears the module token, and in a browser (`hasWindow`)
clears both storages and the cookie and navigates to /login; on later calls
it returns immediately. -/
def handleUnauthorized (hasWindow : Bool) (s : ClientState) : ClientState :=
  if s.isRedirecting then s
  else
    let s1 : ClientState := { s with isRedirecting := true, authToken := none }
    if hasWindow then
      { s1 with localStorageApiToken := none, localStorageUsername := none,
                sessionStorageApiToken := none, cookieApiToken := none,
                locationHref := some "/login" }
    else s1

/-- What checkResponse produces for the caller. -/
inductive CheckResult
  | redirectingPlaceholder
  | thrown (msg : String)
  | jsonData (payload : String)
  deriving DecidableEq, Repr

/-- A fetch response as checkResponse sees it: status, the `detail` field of
the error body if it parses (else `none`), and the JSON payload. -/
structure FetchResp where
  status : Nat
  detail : Option String
  payload : String
  deriving DecidableEq, Repr

/-- checkResponse (api-client.ts:29-43): a 401 triggers handleUnauthorized
and, because the redirect flag is now set, returns the placeholder object;
other non-ok responses throw the error body's detail or the fallback
message; ok responses return the parsed payload. -/
def checkResponse (hasWindow : Bool) (resp : FetchResp) (errorMessage : String)
    (s : ClientState) : ClientState × CheckResult :=
  if resp.status == 401 then
    let s1 := handleUnauthorized hasWindow s
    if s1.isRedirecting then (s1, .redirectingPlaceholder)
    else (s1, .thrown "Sessão expirada. Por favor, faça login novamente.")
  else if !(fetchOk resp.status) then
    (s, .thrown (resp.detail.getD errorMessage))
  else (s, .jsonData resp.payload)

/-- C8: a 401 processed by checkResponse in a browser clears every stored
credential (module token, localStorage api_token and username, sessionStorage
api_token, the api_token cookie), sets the redirect flag, navigates to
/login, and returns the placeholder object; and while the redirect flag is
already set, a further 401 leaves the state unchanged and again returns the
placeholder instead of throwing. -/
theorem c8_unauthorized_clears_credentials (s : ClientState) (resp : FetchResp)
    (msg : String) (h401 : resp.status = 401) :
    (s.isRedirecting = false →
      (checkResponse true resp msg s).1.authToken = none ∧
      (checkResponse true resp msg s).1.localStorageApiToken = none ∧
      (checkResponse true resp msg s).1.localStorageUsername = none ∧
      (checkResponse true resp msg s).1.sessionStorageApiToken = none ∧
      (checkResponse true resp msg s).1.cookieApiToken = none ∧
      (checkResponse true resp msg s).1.isRedirecting = true ∧
      (checkResponse true resp msg s).1.locationHref = some "/login" ∧
      (checkResponse true resp msg s).2 = CheckResult.redirectingPlaceholder) ∧
    (s.isRedirecting = true →
      checkResponse true resp msg s = (s, CheckResult.redirectingPlaceholder)) := by
  constructor
  · intro hflag
    simp [checkResponse, handleUnauthorized, h401, hflag]
  · intro hflag
    simp [checkResponse, handleUnauthorized, h401, hflag]

/-- C8 witness: concrete first 401 from a clean logged-in state clears all
credentials and redirects. -/
theorem c8_unauthorized_clears_credentials_witness :
    (checkResponse true ⟨401, none, ""⟩ "Falha ao listar documentos"
        ⟨some "tk", false, some "tk", some "joel", some "tk", some "tk", none⟩).1
      = ⟨none, true, none, none, none, none, some "/login"⟩ ∧
    (checkResponse true ⟨401, none, ""⟩ "Falha ao listar documentos"
        ⟨some "tk", false, some "tk", some "joel", some "tk", some "tk", none⟩).2
      = CheckResult.redirectingPlaceholder :=
  ⟨by decide,
   (c8_unauthorized_clears_credentials
      ⟨some "tk", false, some "tk", some "joel", some "tk", some "tk", none⟩
      ⟨401, none, ""⟩ "Falha ao listar documentos" rfl).1 rfl |>.2.2.2.2.2.2.2⟩

/-- A share entry as the share dialog sees it (share-dialog.tsx ShareInfo). -/
structure ShareInfo where
  entity_type : String
  entity_id : String
  permission : String
  deriving DecidableEq, Repr

/-- Modelled from the spec: effect on the document's share set of the
backend operation behind `apiClient.unshareDocument`
(DELETE /documents/{id}/share/{entity_type}/{entity_id}, spec §6 unshare):
it removes the share entry of that principal.  The backend implementation
is not part of this repository. -/
def unshareOp (shares : List ShareInfo) (etype eid : String) : List ShareInfo :=
  shares.filter (fun s => !(s.entity_type == etype && s.entity_id == eid))

/-- Modelled from the spec: effect on the document's share set of the
backend operation behind `apiClient.shareDocument`
(POST /documents/{id}/share, spec §6 share): it grants the principal the
given permission (any previous grant is replaced).  The backend
implementation is not part of this repository. -/
def shareOp (shares : List ShareInfo) (etype eid perm : String) : List ShareInfo :=
  unshareOp shares etype eid ++ [⟨etype, eid, perm⟩]

/-- ShareDialog.handleUpdatePermission (share-dialog.tsx:122-131): awaits
`unshareDocument`, then `shareDocument` with the new permission; a thrown
error is caught and only sets an error message, with no compensating
re-add.  The Bool flags inject failure of each of the two backend calls.
Result: the document's share set afterwards and the error message, if any. -/
def handleUpdatePermission (unshareFails shareFails : Bool)
    (shares : List ShareInfo) (sh : ShareInfo) (newPerm : String) :
    List ShareInfo × Option String :=
  if unshareFails then (shares, some "Erro ao atualizar")
  else
    let afterUnshare := unshareOp shares sh.entity_type sh.entity_id
    if shareFails then (afterUnshare, some "Erro ao atualizar")
    else (shareOp afterUnshare sh.entity_type sh.entity_id newPerm, none)

/-- Helper: filtering away the entries satisfying `p` leaves a list on which
`p` never holds. -/
theorem any_filter_not_self {α : Type} (l : List α) (p : α → Bool) :
    (l.filter (fun s => !(p s))).any p = false := by
  induction l with
  | nil => rfl
  | cons x xs ih => cases hx : p x <;> simp [List.filter_cons, hx, ih]

/-- C10: a permission change is remove-then-re-add, not atomic: the unshare
call runs first, and when the following share call fails the dialog leaves
the share set exactly as the unshare left it — with no entry for that
principal; when both calls succeed the result is the share applied after
the unshare. -/
theorem c10_update_permission_is_remove_then_add
    (shares : List ShareInfo) (sh : ShareInfo) (newPerm : String) :
    handleUpdatePermission false true shares sh newPerm
        = (unshareOp shares sh.entity_type sh.entity_id, some "Erro ao atualizar") ∧
    ((handleUpdatePermission false true shares sh newPerm).1.any
        (fun s => s.entity_type == sh.entity_type && s.entity_id == sh.entity_id)) = false ∧
    (handleUpdatePermission false false shares sh newPerm).1
        = shareOp (unshareOp shares sh.entity_type sh.entity_id)
            sh.entity_type sh.entity_id newPerm := by
  refine ⟨rfl, ?_, rfl⟩
  exact any_filter_not_self shares _

/-- A document row of the dashboard (documents-tab.tsx `Document`). -/
structure Doc where
  document_id : String
  filename : String
  status : String
  progress : Option Nat
  created_at : String
  size : Option String
  model : Option String
  error : Option String
  chunks : Option Nat
  entities : Option Nat
  relationships : Option Nat
  deriving DecidableEq, Repr

/-- The fields of a /status/{id} response the polling effect reads. -/
structure StatusResp where
  document_id : String
  status : String
  progress : Option Nat
  error : Option String
  deriving DecidableEq, Repr

/-- documents-tab.tsx:58: the documents currently shown as Processing. -/
def processingDocs (docs : List Doc) : List Doc :=
  docs.filter (fun d => d.status == "Processing")

/-- documents-tab.tsx:61: the polling effect returns early (installs no
interval) exactly when no document is Processing. -/
def pollingActive (docs : List Doc) : Bool :=
  !((processingDocs docs).length == 0)

/-- documents-tab.tsx:65-66: the ids polled in one cycle. -/
def pollCalls (docs : List Doc) : List String :=
  (processingDocs docs).map (fun d => d.document_id)

/-- A terminal status (documents-tab.tsx:71-73). -/
def isDoneStatus (s : String) : Bool := s == "Completed" || s == "Failed"

/-- documents-tab.tsx:83: replace exactly status, progress and error from
the polled status, keep every other field. -/
def applyStatus (d : Doc) (st : StatusResp) : Doc :=
  { d with status := st.status, progress := st.progress, error := st.error }

/-- Outcome of one poll cycle: either reload the whole list or replace the
document list with an updated one. -/
inductive PollAction
  | reload
  | update (docs : List Doc)
  deriving DecidableEq, Repr

/-- documents-tab.tsx:81: `statuses.find(s => s?.document_id === doc.document_id)`'s
predicate (a null entry never matches). -/
def statusMatches (docId : String) (s : Option StatusResp) : Bool :=
  match s with
  | some st => st.document_id == docId
  | none => false

/-- documents-tab.tsx:63-91 checkStatuses: if any polled status is Completed
or Failed, reload the whole list; otherwise map over the current documents,
patching status/progress/error of those with a matching polled status. -/
def checkStatuses (docs : List Doc) (statuses : List (Option StatusResp)) : PollAction :=
  let anyCompleted := statuses.any (fun s =>
    match s with
    | some st => isDoneStatus st.status
    | none => false)
  if anyCompleted then .reload
  else .update (docs.map (fun d =>
    match statuses.find? (statusMatches d.document_id) with
    | some (some st) => applyStatus d st
    | _ => d))

/-- One poll cycle: poll the status endpoint for each Processing document
(`bs` is the backend, `none` modelling the `.catch(() => null)`), then run
checkStatuses on the results. -/
def pollCycle (docs : List Doc) (bs : String → Option StatusResp) : PollAction :=
  checkStatuses docs ((processingDocs docs).map (fun d => bs d.document_id))

/-- Reference update of the claim: patch status, progress and error of each
Processing document from its polled status and leave every other document
and field unchanged. -/
def specUpdateStillProcessing (bs : String → Option StatusResp) (d : Doc) : Doc :=
  if d.status == "Processing" then
    match bs d.document_id with
    | some st => applyStatus d st
    | none => d
  else d

/-- The backend reports this document still Processing, under its own id. -/
def stillProcessing (bs : String → Option StatusResp) (d : Doc) : Bool :=
  match bs d.document_id with
  | some st => st.document_id == d.document_id && st.status == "Processing"
  | none => false

/-- Some polled status of this cycle is Completed or Failed (the
anyCompleted test of documents-tab.tsx:71-73, with the statuses list
expressed through the backend function). -/
def anyDone (docs : List Doc) (bs : String → Option StatusResp) : Bool :=
  ((processingDocs docs).map (fun d => bs d.document_id)).any (fun s =>
    match s with
    | some st => isDoneStatus st.status
    | none => false)

/-- Helper: unpack `stillProcessing`. -/
theorem stillProcessing_spec (bs : String → Option StatusResp) (d : Doc)
    (h : stillProcessing bs d = true) :
    ∃ st, bs d.document_id = some st ∧ st.document_id = d.document_id ∧
      st.status = "Processing" := by
  unfold stillProcessing at h
  revert h
  cases hbs : bs d.document_id with
  | none => intro h; cases h
  | some st =>
    intro h
    simp only [Bool.and_eq_true, beq_iff_eq] at h
    exact ⟨st, rfl, h.1, h.2⟩

/-- Helper: pollCycle as a single conditional. -/
theorem pollCycle_eq_cond (docs : List Doc) (bs : String → Option StatusResp) :
    pollCycle docs bs =
      if anyDone docs bs then PollAction.reload
      else PollAction.update (docs.map (fun d =>
        match ((processingDocs docs).map (fun p => bs p.document_id)).find?
            (statusMatches d.document_id) with
        | some (some st) => applyStatus d st
        | _ => d)) := by
  unfold pollCycle checkStatuses anyDone
  rfl

/-- Helper: when every polled document is still Processing under its own id
and no polled document carries `dId`, no polled status matches `dId`. -/
theorem find_status_none (bs : String → Option StatusResp) (dId : String)
    (procs : List Doc)
    (hstill : ∀ p ∈ procs, stillProcessing bs p = true)
    (hne : ∀ p ∈ procs, p.document_id ≠ dId) :
    (procs.map (fun p => bs p.document_id)).find? (statusMatches dId) = none := by
  rw [List.find?_eq_none]
  intro x hx
  obtain ⟨p, hp, rfl⟩ := List.mem_map.mp hx
  obtain ⟨st, hbs, hstid, _⟩ := stillProcessing_spec bs p (hstill p hp)
  rw [hbs]
  unfold statusMatches
  simp only [beq_iff_eq]
  intro hEq
  exact hne p hp (by rw [← hstid]; exact hEq)

/-- Helper: when every polled document is still Processing under its own id
and ids identify documents, the first status matching `d`'s id is exactly
the status polled for `d`. -/
theorem find_status_some (bs : String → Option StatusResp) (d : Doc)
    (procs : List Doc)
    (hstill : ∀ p ∈ procs, stillProcessing bs p = true)
    (hinj : ∀ p ∈ procs, ∀ q ∈ procs, p.document_id = q.document_id → p = q)
    (hmem : d ∈ procs) :
    (procs.map (fun p => bs p.document_id)).find? (statusMatches d.document_id)
      = some (bs d.document_id) := by
  induction procs with
  | nil => cases hmem
  | cons p rest ih =>
    obtain ⟨st, hbs, hstid, hstat⟩ :=
      stillProcessing_spec bs p (hstill p (List.mem_cons_self p rest))
    rw [List.map_cons, hbs]
    by_cases hid : p.document_id = d.document_id
    · have hpd : p = d :=
        hinj p (List.mem_cons_self p rest) d hmem hid
      rw [List.find?_cons_of_pos]
      · rw [← hpd, hbs]
      · unfold statusMatches
        simp [hstid, hid]
    · rw [List.find?_cons_of_neg]
      · have hdrest : d ∈ rest := by
          rcases List.mem_cons.mp hmem with h | h
          · subst h
            exact absurd rfl hid
          · exact h
        exact ih (fun a ha => hstill a (List.mem_cons_of_mem p ha))
          (fun a ha b hb => hinj a (List.mem_cons_of_mem p ha) b (List.mem_cons_of_mem p hb))
          hdrest
      · unfold statusMatches
        simp only [beq_iff_eq]
        intro h
        exact hid (by rw [← hstid]; exact h)

/-- C7: in one poll cycle the component (i) polls exactly the documents
whose status is Processing, (ii) does not poll at all when none is
Processing, (iii) reloads the whole list as soon as any polled status is
Completed or Failed, (iv) otherwise — when every polled status is still
Processing and ids identify documents — replaces the list by the
frame-preserving update that patches only status/progress/error of the
Processing documents, and (v) that patch leaves every other field of a
document unchanged. -/
theorem c7_polling_frame_preserving (docs : List Doc) (bs : String → Option StatusResp) :
    pollCalls docs
        = (docs.filter (fun d => d.status == "Processing")).map (fun d => d.document_id) ∧
    (processingDocs docs = [] → pollingActive docs = false) ∧
    (anyDone docs bs = true → pollCycle docs bs = PollAction.reload) ∧
    ((∀ p ∈ docs, ∀ q ∈ docs, p.document_id = q.document_id → p = q) →
      (∀ d ∈ processingDocs docs, stillProcessing bs d = true) →
      pollCycle docs bs = PollAction.update (docs.map (specUpdateStillProcessing bs))) ∧
    (∀ d st, (applyStatus d st).document_id = d.document_id ∧
      (applyStatus d st).filename = d.filename ∧
      (applyStatus d st).created_at = d.created_at ∧
      (applyStatus d st).size = d.size ∧
      (applyStatus d st).model = d.model ∧
      (applyStatus d st).chunks = d.chunks ∧
      (applyStatus d st).entities = d.entities ∧
      (applyStatus d st).relationships = d.relationships ∧
      (applyStatus d st).status = st.status ∧
      (applyStatus d st).progress = st.progress ∧
      (applyStatus d st).error = st.error) := by
  refine ⟨rfl, ?_, ?_, ?_, fun d st => ⟨rfl, rfl, rfl, rfl, rfl, rfl, rfl, rfl, rfl, rfl, rfl⟩⟩
  · intro h
    unfold pollingActive
    rw [h]
    rfl
  · intro h
    rw [pollCycle_eq_cond, if_pos h]
  · intro hkeys hstill
    have hnd : anyDone docs bs = false := by
      unfold anyDone
      rw [List.any_eq_false]
      intro x hx
      obtain ⟨p, hp, rfl⟩ := List.mem_map.mp hx
      obtain ⟨st, hbs, _, hstat⟩ := stillProcessing_spec bs p (hstill p hp)
      rw [hbs]
      simp [isDoneStatus, hstat]
    rw [pollCycle_eq_cond, if_neg (by simp [hnd])]
    refine congrArg PollAction.update (List.map_congr_left ?_)
    intro d hd
    by_cases hds : d.status = "Processing"
    · have hmemp : d ∈ processingDocs docs :=
        List.mem_filter.mpr ⟨hd, by simp [hds]⟩
      have hinjp : ∀ p ∈ processingDocs docs, ∀ q ∈ processingDocs docs,
          p.document_id = q.document_id → p = q := fun p hp q hq =>
        hkeys p (List.mem_filter.mp hp).1 q (List.mem_filter.mp hq).1
      obtain ⟨st, hbs, _, hstat⟩ := stillProcessing_spec bs d (hstill d hmemp)
      rw [find_status_some bs d (processingDocs docs) hstill hinjp hmemp, hbs]
      simp [specUpdateStillProcessing, hds, hbs]
    · have hne : ∀ p ∈ processingDocs docs, p.document_id ≠ d.document_id := by
        intro p hp hEq
        obtain ⟨hpd, hps⟩ := List.mem_filter.mp hp
        have : p = d := hkeys p hpd d hd hEq
        rw [this] at hps
        simp only [beq_iff_eq] at hps
        exact hds hps
      rw [find_status_none bs d.document_id (processingDocs docs) hstill hne]
      simp [specUpdateStillProcessing, hds]

/-- Concrete document list: one Completed document and one Processing one. -/
def exDocs : List Doc :=
  [⟨"d1", "a.pdf", "Completed", some 100, "2026-01-01", none, some "claude", none,
    some 3, some 5, some 2⟩,
   ⟨"d2", "b.pdf", "Processing", some 10, "2026-01-02", none, some "claude", none,
    none, none, none⟩]

/-- Concrete backend: d2 still Processing at 55 percent, nothing else known. -/
def exBS : String → Option StatusResp :=
  fun id => if id == "d2" then some ⟨"d2", "Processing", some 55, none⟩ else none

/-- C7 witness: on the concrete list, one poll cycle patches only d2's
status/progress/error and leaves d1 untouched. -/
theorem c7_polling_frame_preserving_witness :
    pollCycle exDocs exBS
      = PollAction.update
          [⟨"d1", "a.pdf", "Completed", some 100, "2026-01-01", none, some "claude", none,
            some 3, some 5, some 2⟩,
           ⟨"d2", "b.pdf", "Processing", some 55, "2026-01-02", none, some "claude", none,
            none, none, none⟩] := by
  have h := (c7_polling_frame_preserving exDocs exBS).2.2.2.1 (by decide) (by decide)
  rw [h]
  rfl

end GraphRAG
